import Mathlib

/-!
Shallow embedding of the Grido Audit Vision data layer (src/db.py) and the
relevant page actions (src/pagina_mejoras.py, src/pagina_auditoria.py).

Conventions of the embedding:
* MongoDB collections become lists of structures inside `DbState`; an
  `insert_one` is an append, `update_one`/`$set` is a map over the list
  guarded by the document id, `delete_many` is a filter.
* Timestamps (`datetime.now(timezone.utc)`) are integers counted in seconds;
  `timedelta(days = d)` is `d * day` with `day = 86400`.
* Python dicts built by insertion (`setdefault`, `$group`) become association
  lists that preserve first-insertion order of the keys.
* Python `round` rounds half to even; `round(sum(pts)/len(pts))` is modelled
  exactly over the integer pair (sum, len) by `pyRound` (the quotients that
  arise here are exact, so the float detour of CPython never changes a tie).
* Field names follow src/db.py except where Lean reserves the word:
  `local` is rendered `loc` and `section` is rendered `sec`.
-/

def day : Int := 86400

/-- Python `round(num/den)` for integers with `den > 0`: nearest integer,
ties to even (model of the builtin `round`). `f` is the floor of the quotient
and `rem` its remainder, so the fractional part is `rem/den`. -/
def pyRound (num den : Int) : Int :=
  let f : Int := Int.fdiv num den
  let rem : Int := num - f * den
  if 2 * rem < den then f
  else if den < 2 * rem then f + 1
  else if f % 2 = 0 then f else f + 1

/-- One document of the `audit_results` collection (src/db.py, save_audit_result). -/
structure AuditResult where
  loc : String
  fecha : String
  sec : String
  item_id : String
  item_name : String
  status : String
  justificacion : String
  analyzed_at : Int
deriving DecidableEq, Repr

/-- The `score_map` of calculate_section_scores (src/db.py line 396). -/
def score_map : List (String × Int) :=
  [("Conforme", 100), ("Observación", 50), ("No Conforme", 0)]

/-- Python `score_map.get(status, 50)` (src/db.py line 399). -/
def scoreMapGet (status : String) : Int :=
  (score_map.lookup status).getD 50

/-- Model of `section_points.setdefault(sec, []).append(pts)`: insertion-ordered dict of
point lists keyed by section (src/db.py lines 395-400). -/
def addPoint (acc : List (String × List Int)) (sec : String) (p : Int) :
    List (String × List Int) :=
  if acc.any (fun e => e.1 = sec) then
    acc.map (fun e => if e.1 = sec then (e.1, e.2 ++ [p]) else e)
  else acc ++ [(sec, [p])]

def groupPoints (results : List AuditResult) : List (String × List Int) :=
  results.foldl (fun acc r => addPoint acc r.sec (scoreMapGet r.status)) []

/-- Python `round(sum(pts)/len(pts))` of a point list. -/
def roundMean (pts : List Int) : Int :=
  pyRound pts.sum pts.length

/-- src/db.py lines 392-404: one score 0-100 per section,
`round(sum(pts)/len(pts)) if pts else 0`. -/
def calculate_section_scores (results : List AuditResult) : List (String × Int) :=
  (groupPoints results).map
    (fun e => (e.1, if e.2.isEmpty then 0 else roundMean e.2))

/-- src/db.py lines 415-416: `all_pts = [v for v in scores.values() if v is not None]`
(every stored value is an integer, so the filter keeps everything) followed by
`round(sum(all_pts)/len(all_pts)) if all_pts else 0`. -/
def score_global_of (results : List AuditResult) : Int :=
  let all_pts := (calculate_section_scores results).map Prod.snd
  if all_pts.isEmpty then 0 else roundMean all_pts

/-! ### Sorting helpers (kernel-computable stand-ins for Mongo `$sort`) -/

/-- Lexicographic strict order on character lists (code-point order). -/
def clLt : List Char → List Char → Bool
  | [], [] => false
  | [], _ :: _ => true
  | _ :: _, [] => false
  | a :: as, b :: bs =>
    if a.toNat < b.toNat then true
    else if b.toNat < a.toNat then false
    else clLt as bs

def strLt (a b : String) : Bool := clLt a.data b.data

/-- Insert into a sorted list (used by `insSort`). -/
def insertLe {α : Type} (le : α → α → Bool) (a : α) : List α → List α
  | [] => [a]
  | b :: l => if le a b then a :: b :: l else b :: insertLe le a l

/-- Insertion sort: a kernel-computable model of the datastore sort. -/
def insSort {α : Type} (le : α → α → Bool) : List α → List α
  | [] => []
  | a :: l => insertLe le a (insSort le l)

/-- Sort key of get_audit_results: `[("section", 1), ("item_id", 1), ("analyzed_at", 1)]`. -/
def resultLe (r1 r2 : AuditResult) : Bool :=
  if strLt r1.sec r2.sec then true
  else if strLt r2.sec r1.sec then false
  else if strLt r1.item_id r2.item_id then true
  else if strLt r2.item_id r1.item_id then false
  else decide (r1.analyzed_at ≤ r2.analyzed_at)

/-! ### Remaining collections and the database state -/

/-- One document of the `photos` collection (src/db.py, save_photo). -/
structure Photo where
  id : Nat
  loc : String
  fecha : String
  sec : String
  item_id : String
  photo_name : String
  size_bytes : Nat
  created_at : Int
deriving DecidableEq, Repr

/-- One document of the `corrections` collection (src/db.py, save_correction). -/
structure Correction where
  item_id : String
  item_name : String
  ai_status : String
  corrected_status : String
  ai_justificacion : String
  correction_notes : String
  loc : String
  fecha : String
  created_at : Int
deriving DecidableEq, Repr

/-- One document of the `auditorias` collection (src/db.py, upsert_auditoria). -/
structure Auditoria where
  loc : String
  fecha : String
  tipo_auditoria : String
  scores : List (String × Int)
  score_global : Int
  items_evaluados : Nat
  created_by : String
  franquiciado_id : String
  created_at : Int
  updated_at : Int
deriving DecidableEq, Repr

/-- One document of the `desvios` collection (src/db.py, create_desvio). -/
structure Desvio where
  id : Nat
  auditoria_fecha : String
  fecha_deteccion : Int
  loc : String
  seccion : String
  item_codigo : String
  item_descripcion : String
  nivel : String
  tipo_desvio : String
  responsable : String
  fecha_limite : Option Int
  estado : String
  fecha_cierre : Option Int
  comentario_cierre : Option String
  reincidente : Bool
  veces_detectado_60d : Nat
  prioridad : String
  ai_justificacion : String
  franquiciado_id : String
  created_at : Int
  updated_at : Option Int
deriving DecidableEq, Repr

/-- One document of the `decisiones` collection (src/db.py, create_decision). -/
structure Decision where
  id : Nat
  desvio_id : Nat
  item_codigo : String
  loc : String
  impacto : String
  propuesta : String
  estado_decision : String
  created_at : Int
  updated_at : Int
deriving DecidableEq, Repr

/-- One document of the `responsables` collection (src/db.py, add_responsable). -/
structure Responsable where
  id : Nat
  nombre : String
  rol : String
  loc : String
  franquiciado_id : String
  created_at : Int
deriving DecidableEq, Repr

/-- The whole `grido_audit` database. -/
structure DbState where
  photos : List Photo
  results : List AuditResult
  corrections : List Correction
  auditorias : List Auditoria
  desvios : List Desvio
  responsables : List Responsable
  decisiones : List Decision
deriving DecidableEq, Repr

/-! ### Operations of src/db.py -/

/-- src/db.py save_photo: insert a photo document (binary payload kept only as
its size, which is all the logic ever reads). -/
def save_photo (id : Nat) (loc fecha sec item_id photo_name : String)
    (size_bytes : Nat) (now : Int) (s : DbState) : DbState :=
  { s with photos := s.photos ++ [⟨id, loc, fecha, sec, item_id, photo_name, size_bytes, now⟩] }

/-- src/db.py delete_photo: `delete_one({"_id": ...})`; ids are unique. -/
def delete_photo (photo_id : Nat) (s : DbState) : DbState :=
  { s with photos := s.photos.filter (fun p => !(p.id == photo_id)) }

/-- src/db.py lines 303-307: delete photos with
`created_at < now - timedelta(days = months * 30)`. -/
def cleanup_old_photos (months : Int) (now : Int) (s : DbState) : DbState :=
  { s with photos := s.photos.filter (fun p => !(decide (p.created_at < now - months * 30 * day))) }

/-- src/db.py save_audit_result: insert a verdict document; the caller passes
`status = result.get("status", "Observación")` and
`justificacion = result.get("justificacion", "")` already extracted. -/
def save_audit_result (loc fecha sec item_id item_name status justificacion : String)
    (now : Int) (s : DbState) : DbState :=
  { s with results := s.results ++ [⟨loc, fecha, sec, item_id, item_name, status, justificacion, now⟩] }

/-- src/db.py lines 195-201: all audit results for a (local, fecha), sorted by
`[("section", 1), ("item_id", 1), ("analyzed_at", 1)]`. -/
def get_audit_results (s : DbState) (loc fecha : String) : List AuditResult :=
  insSort resultLe (s.results.filter (fun r => r.loc == loc && r.fecha == fecha))

/-- src/db.py save_correction: insert a human-override document. -/
def save_correction (item_id item_name ai_status corrected_status ai_justificacion
    correction_notes loc fecha : String) (now : Int) (s : DbState) : DbState :=
  { s with corrections := s.corrections ++
      [⟨item_id, item_name, ai_status, corrected_status, ai_justificacion,
        correction_notes, loc, fecha, now⟩] }

def auditoriaKey (loc fecha : String) (a : Auditoria) : Bool :=
  a.loc == loc && a.fecha == fecha

/-- Model of `find_one({"local": local, "fecha": fecha})` on auditorias. -/
def find_auditoria (s : DbState) (loc fecha : String) : Option Auditoria :=
  s.auditorias.find? (auditoriaKey loc fecha)

/-- The `$set` part of upsert_auditoria applied to an existing document
(everything but `created_at`, which `$setOnInsert` leaves alone). -/
def setAuditoria (tipo : String) (scores : List (String × Int)) (g : Int)
    (n : Nat) (created_by franquiciado_id : String) (now : Int)
    (a : Auditoria) : Auditoria :=
  { a with tipo_auditoria := tipo, scores := scores, score_global := g,
           items_evaluados := n, created_by := created_by,
           franquiciado_id := franquiciado_id, updated_at := now }

/-- src/db.py lines 407-434: recompute scores from audit_results and upsert the
summary document, `$set`-ting the computed fields and keeping `created_at` on
update ( `$setOnInsert` ). The (local, fecha) index is unique, so at most one
document matches. -/
def upsert_auditoria (loc fecha tipo created_by franquiciado_id : String)
    (now : Int) (s : DbState) : DbState :=
  let results := get_audit_results s loc fecha
  let scores := calculate_section_scores results
  let g := score_global_of results
  let n := results.length
  if s.auditorias.any (auditoriaKey loc fecha) then
    { s with auditorias := s.auditorias.map (fun a =>
        if auditoriaKey loc fecha a then
          setAuditoria tipo scores g n created_by franquiciado_id now a
        else a) }
  else
    { s with auditorias := s.auditorias ++
        [⟨loc, fecha, tipo, scores, g, n, created_by, franquiciado_id, now, now⟩] }

/-- src/db.py lines 485-491: count desvios of the same (local, item_codigo)
with `fecha_deteccion >= now - timedelta(days = days)`. -/
def _check_recurrence (s : DbState) (loc item_codigo : String) (days : Int)
    (now : Int) : Nat :=
  (s.desvios.filter (fun d =>
    d.loc == loc && d.item_codigo == item_codigo &&
      decide (now - days * day ≤ d.fecha_deteccion))).length

/-- The document inserted by create_desvio (src/db.py lines 505-527). -/
def mkDesvio (id : Nat) (auditoria_fecha loc seccion item_codigo item_descripcion
    nivel ai_justificacion prioridad franquiciado_id : String) (now : Int)
    (s : DbState) : Desvio :=
  let veces := _check_recurrence s loc item_codigo 60 now + 1
  { id := id
    auditoria_fecha := auditoria_fecha
    fecha_deteccion := now
    loc := loc
    seccion := seccion
    item_codigo := item_codigo
    item_descripcion := item_descripcion
    nivel := nivel
    tipo_desvio := if 3 ≤ veces then "estructural" else "operativo"
    responsable := ""
    fecha_limite := none
    estado := "pendiente"
    fecha_cierre := none
    comentario_cierre := none
    reincidente := decide (1 < veces)
    veces_detectado_60d := veces
    prioridad := prioridad
    ai_justificacion := ai_justificacion
    franquiciado_id := franquiciado_id
    created_at := now
    updated_at := none }

/-- src/db.py lines 494-529: classify the new deviation by the 60-day
recurrence window and insert it. -/
def create_desvio (id : Nat) (auditoria_fecha loc seccion item_codigo
    item_descripcion nivel ai_justificacion prioridad franquiciado_id : String)
    (now : Int) (s : DbState) : DbState :=
  { s with desvios := s.desvios ++
      [mkDesvio id auditoria_fecha loc seccion item_codigo item_descripcion
        nivel ai_justificacion prioridad franquiciado_id now s] }

/-- The `$set` payload accepted by update_desvio; `none` means the key is
absent from the updates dict. -/
structure DesvioSet where
  estado : Option String := none
  responsable : Option String := none
  fecha_limite : Option (Option Int) := none
  fecha_cierre : Option (Option Int) := none
  comentario_cierre : Option (Option String) := none
deriving DecidableEq, Repr

def applySet (d : Desvio) (u : DesvioSet) (now : Int) : Desvio :=
  { d with
    estado := u.estado.getD d.estado
    responsable := u.responsable.getD d.responsable
    fecha_limite := u.fecha_limite.getD d.fecha_limite
    fecha_cierre := u.fecha_cierre.getD d.fecha_cierre
    comentario_cierre := u.comentario_cierre.getD d.comentario_cierre
    updated_at := some now }

/-- src/db.py lines 556-562: `update_one({"_id": ...}, {"$set": updates})` with
`updates["updated_at"] = now`; no precondition is checked. Ids are unique. -/
def update_desvio (desvio_id : Nat) (u : DesvioSet) (now : Int) (s : DbState) : DbState :=
  { s with desvios := s.desvios.map (fun d =>
      if d.id = desvio_id then applySet d u now else d) }

/-- src/db.py lines 565-570. -/
def close_desvio (desvio_id : Nat) (comentario : String) (now : Int) (s : DbState) : DbState :=
  update_desvio desvio_id
    { estado := some "cumplido"
      fecha_cierre := some (some now)
      comentario_cierre := some (some comentario) } now s

/-- src/db.py add_responsable. -/
def add_responsable (id : Nat) (nombre rol loc franquiciado_id : String)
    (now : Int) (s : DbState) : DbState :=
  { s with responsables := s.responsables ++ [⟨id, nombre, rol, loc, franquiciado_id, now⟩] }

/-- src/db.py delete_responsable. -/
def delete_responsable (resp_id : Nat) (s : DbState) : DbState :=
  { s with responsables := s.responsables.filter (fun r => !(r.id == resp_id)) }

/-- src/db.py lines 716-734: insert a Decision with `propuesta = ""` and
`estado_decision = "pendiente"`. -/
def create_decision (id : Nat) (desvio_id : Nat) (item_codigo loc impacto : String)
    (now : Int) (s : DbState) : DbState :=
  { s with decisiones := s.decisiones ++
      [⟨id, desvio_id, item_codigo, loc, impacto, "", "pendiente", now, now⟩] }

/-- The `$set` payload accepted by update_decision. -/
structure DecisionSet where
  impacto : Option String := none
  propuesta : Option String := none
  estado_decision : Option String := none
deriving DecidableEq, Repr

/-- src/db.py update_decision. -/
def update_decision (decision_id : Nat) (u : DecisionSet) (now : Int) (s : DbState) : DbState :=
  { s with decisiones := s.decisiones.map (fun d =>
      if d.id = decision_id then
        { d with impacto := u.impacto.getD d.impacto
                 propuesta := u.propuesta.getD d.propuesta
                 estado_decision := u.estado_decision.getD d.estado_decision
                 updated_at := now }
      else d) }

/-! ### Page actions of src/pagina_mejoras.py (vista operativa) -/

/-- The deviation the page is rendering, as fetched by get_desvios before the
button is pressed (ids are unique, so find? returns the document). -/
def find_desvio (s : DbState) (did : Nat) : Option Desvio :=
  s.desvios.find? (fun d => d.id == did)

/-- src/pagina_mejoras.py lines 107-117, button "Guardar cambios": `$set`
estado/responsable/fecha_limite, then, when the chosen estado is "cumplido",
close the deviation with the fixed comment "Cerrado desde bandeja".
No Decision is ever created on this path. -/
def guardar_cambios (did : Nat) (new_estado new_resp : String) (new_limit : Int)
    (now : Int) (s : DbState) : DbState :=
  let s1 := update_desvio did
    { estado := some new_estado
      responsable := some (if new_resp = "(sin asignar)" then "" else new_resp)
      fecha_limite := some (some new_limit) } now s
  if new_estado = "cumplido" then close_desvio did "Cerrado desde bandeja" now s1 else s1

/-- src/pagina_mejoras.py lines 119-129, button "Cerrar desvío": close with
`comentario or "Sin comentario"` and, when the rendered deviation is
"estructural", create a Decision (`dec_id` models the generated ObjectId). -/
def cerrar_desvio (did : Nat) (comentario : String) (dec_id : Nat) (now : Int)
    (s : DbState) : DbState :=
  let fetched := find_desvio s did
  let s1 := close_desvio did (if comentario = "" then "Sin comentario" else comentario) now s
  match fetched with
  | some d =>
    if d.tipo_desvio = "estructural" then
      create_decision dec_id did d.item_codigo d.loc d.ai_justificacion now s1
    else s1
  | none => s1

/-! ### Writes as a single step type (for frame properties) -/

/-- Every state-mutating operation of the system (src/db.py writes plus the
composite page actions that call them). -/
inductive DbOp where
  | opSavePhoto (id : Nat) (loc fecha sec item_id photo_name : String)
      (size_bytes : Nat) (now : Int)
  | opDeletePhoto (photo_id : Nat)
  | opCleanupOldPhotos (months now : Int)
  | opSaveAuditResult (loc fecha sec item_id item_name status justificacion : String)
      (now : Int)
  | opSaveCorrection (item_id item_name ai_status corrected_status ai_justificacion
      correction_notes loc fecha : String) (now : Int)
  | opUpsertAuditoria (loc fecha tipo created_by franquiciado_id : String) (now : Int)
  | opCreateDesvio (id : Nat) (auditoria_fecha loc seccion item_codigo
      item_descripcion nivel ai_justificacion prioridad franquiciado_id : String)
      (now : Int)
  | opUpdateDesvio (desvio_id : Nat) (u : DesvioSet) (now : Int)
  | opCloseDesvio (desvio_id : Nat) (comentario : String) (now : Int)
  | opAddResponsable (id : Nat) (nombre rol loc franquiciado_id : String) (now : Int)
  | opDeleteResponsable (resp_id : Nat)
  | opCreateDecision (id desvio_id : Nat) (item_codigo loc impacto : String) (now : Int)
  | opUpdateDecision (decision_id : Nat) (u : DecisionSet) (now : Int)
  | opGuardarCambios (did : Nat) (new_estado new_resp : String) (new_limit now : Int)
  | opCerrarDesvio (did : Nat) (comentario : String) (dec_id : Nat) (now : Int)

def applyOp : DbOp → DbState → DbState
  | .opSavePhoto id loc fecha sec item_id photo_name size_bytes now, s =>
    save_photo id loc fecha sec item_id photo_name size_bytes now s
  | .opDeletePhoto photo_id, s => delete_photo photo_id s
  | .opCleanupOldPhotos months now, s => cleanup_old_photos months now s
  | .opSaveAuditResult loc fecha sec item_id item_name status justificacion now, s =>
    save_audit_result loc fecha sec item_id item_name status justificacion now s
  | .opSaveCorrection item_id item_name ai_status corrected_status ai_justificacion
      correction_notes loc fecha now, s =>
    save_correction item_id item_name ai_status corrected_status ai_justificacion
      correction_notes loc fecha now s
  | .opUpsertAuditoria loc fecha tipo created_by franquiciado_id now, s =>
    upsert_auditoria loc fecha tipo created_by franquiciado_id now s
  | .opCreateDesvio id auditoria_fecha loc seccion item_codigo item_descripcion
      nivel ai_justificacion prioridad franquiciado_id now, s =>
    create_desvio id auditoria_fecha loc seccion item_codigo item_descripcion
      nivel ai_justificacion prioridad franquiciado_id now s
  | .opUpdateDesvio desvio_id u now, s => update_desvio desvio_id u now s
  | .opCloseDesvio desvio_id comentario now, s => close_desvio desvio_id comentario now s
  | .opAddResponsable id nombre rol loc franquiciado_id now, s =>
    add_responsable id nombre rol loc franquiciado_id now s
  | .opDeleteResponsable resp_id, s => delete_responsable resp_id s
  | .opCreateDecision id desvio_id item_codigo loc impacto now, s =>
    create_decision id desvio_id item_codigo loc impacto now s
  | .opUpdateDecision decision_id u now, s => update_decision decision_id u now s
  | .opGuardarCambios did new_estado new_resp new_limit now, s =>
    guardar_cambios did new_estado new_resp new_limit now s
  | .opCerrarDesvio did comentario dec_id now, s => cerrar_desvio did comentario dec_id now s

/-! ### Recurring-failure query (src/db.py lines 250-274) -/

/-- One row returned by get_recurring_failures. -/
structure RecFail where
  item_id : String
  item_name : String
  fail_count : Nat
  fechas : List String
deriving DecidableEq, Repr

def strLe (a b : String) : Bool := !(strLt b a)

/-- The `$group` stage: per (item_id, item_name) a running
`fail_count: {$sum: 1}` and `fechas: {$addToSet: "$fecha"}`. -/
def addFail (acc : List ((String × String) × Nat × List String))
    (key : String × String) (fecha : String) :
    List ((String × String) × Nat × List String) :=
  if acc.any (fun e => e.1 = key) then
    acc.map (fun e =>
      if e.1 = key then
        (e.1, e.2.1 + 1, if fecha ∈ e.2.2 then e.2.2 else e.2.2 ++ [fecha])
      else e)
  else acc ++ [(key, 1, [fecha])]

/-- src/db.py lines 250-274: match `status != "Conforme"` for the location,
group by item, keep groups with `fail_count >= min_count` (a count of
DOCUMENTS, not of distinct fechas), sort by fail_count descending, and return
each group with its `fechas` set sorted. -/
def get_recurring_failures (s : DbState) (loc : String) (min_count : Nat) :
    List RecFail :=
  let matched := s.results.filter (fun r => r.loc == loc && !(r.status == "Conforme"))
  let groups := matched.foldl (fun acc r => addFail acc (r.item_id, r.item_name) r.fecha) []
  let kept := groups.filter (fun g => decide (min_count ≤ g.2.1))
  let sorted := insSort (fun a b => decide (b.2.1 ≤ a.2.1)) kept
  sorted.map (fun g => ⟨g.1.1, g.1.2, g.2.1, insSort strLe g.2.2⟩)

/-! ### The classifier-response handling of analyze_photo
(src/pagina_auditoria.py lines 178-191)

The remote call itself is an external effect; what the source controls — and
what the embedding models — is the deterministic processing of the returned
text: `strip()`, the code-fence stripping, `json.loads`, and the
`except json.JSONDecodeError` fallback verdict. The parser below implements
the grammar of CPython `json.loads` with its default arguments: the four JSON
whitespace characters between tokens; strict strings (a literal control
character below 0x20 is an error, the eight escapes plus \uXXXX with
surrogate-pair combination are decoded, any other escape is an error); the
JSON number grammar `-?(0|[1-9][0-9]*)(\.[0-9]+)?([eE][+-]?[0-9]+)?` with int
versus float results; the constants true/false/null and NaN, Infinity, -Infinity;
and dict semantics for duplicate object keys (first position, last value).
Two representation choices, which never affect WHICH texts parse: a float is
kept as the exact decimal `m * 10^scale` it denotes rather than the nearest
binary double, and a lone surrogate — which a Python str can hold but a Lean
String cannot — is replaced by U+FFFD. -/

/-- JSON values as `json.loads` returns them: `num n` is a Python int,
`fnum m scale` a Python float with exact decimal value `m * 10^scale`, and
`nan`/`inf` the results of parsing NaN, Infinity and -Infinity. -/
inductive Json where
  | null
  | bool (b : Bool)
  | num (n : Int)
  | fnum (m : Int) (scale : Int)
  | nan
  | inf (neg : Bool)
  | str (s : String)
  | arr (elems : List Json)
  | obj (fields : List (String × Json))

/-- The JSON inter-token whitespace `[ \t\n\r]` of the decoder. -/
def isJsonWs (c : Char) : Bool :=
  c == ' ' || c == '\t' || c == '\n' || c == '\r'

def skipWs (cs : List Char) : List Char := cs.dropWhile isJsonWs

def isDigitCh (c : Char) : Bool := 48 ≤ c.toNat && c.toNat ≤ 57

def digitsToNat (ds : List Char) : Nat :=
  ds.foldl (fun acc c => acc * 10 + (c.toNat - 48)) 0

def hexVal (c : Char) : Option Nat :=
  let n := c.toNat
  if 48 ≤ n && n ≤ 57 then some (n - 48)
  else if 97 ≤ n && n ≤ 102 then some (n - 87)
  else if 65 ≤ n && n ≤ 70 then some (n - 55)
  else none

def hex4v (h1 h2 h3 h4 : Char) : Option Nat :=
  match hexVal h1, hexVal h2, hexVal h3, hexVal h4 with
  | some a, some b, some c, some d => some (((a * 16 + b) * 16 + c) * 16 + d)
  | _, _, _, _ => none

/-- A decoded UTF-16 code unit as a Char: a lone surrogate, which a Python
str can hold but a Lean String cannot, becomes U+FFFD. -/
def codeUnitChar (n : Nat) : Char :=
  if 0xD800 ≤ n && n ≤ 0xDFFF then Char.ofNat 0xFFFD else Char.ofNat n

/-- Parse a JSON string body after the opening quote, strict mode: a literal
character below 0x20 is an error; the escapes are exactly
`\" \\ \/ \b \f \n \r \t` and `\uXXXX`; a high-surrogate escape
immediately followed by a low-surrogate escape combines into one code point,
as in CPython py_scanstring. Each step consumes at least one character, so
a fuel of `length + 1` never runs out. -/
def pStr : Nat → List Char → List Char → Option (String × List Char)
  | 0, _, _ => none
  | Nat.succ fuel, acc, cs =>
    match cs with
    | [] => none
    | c :: rest =>
      if c == '"' then some (String.mk acc.reverse, rest)
      else if c == '\\' then
        match rest with
        | [] => none
        | e :: rest2 =>
          if e == '"' || e == '\\' || e == '/' then pStr fuel (e :: acc) rest2
          else if e == 'b' then pStr fuel ('\x08' :: acc) rest2
          else if e == 'f' then pStr fuel ('\x0C' :: acc) rest2
          else if e == 'n' then pStr fuel ('\n' :: acc) rest2
          else if e == 'r' then pStr fuel ('\r' :: acc) rest2
          else if e == 't' then pStr fuel ('\t' :: acc) rest2
          else if e == 'u' then
            match rest2 with
            | h1 :: h2 :: h3 :: h4 :: rest3 =>
              (match hex4v h1 h2 h3 h4 with
               | none => none
               | some n =>
                 if 0xD800 ≤ n && n ≤ 0xDBFF then
                   match rest3 with
                   | '\\' :: 'u' :: g1 :: g2 :: g3 :: g4 :: rest5 =>
                     (match hex4v g1 g2 g3 g4 with
                      | none => none
                      | some n2 =>
                        if 0xDC00 ≤ n2 && n2 ≤ 0xDFFF then
                          pStr fuel (Char.ofNat
                            (0x10000 + (n - 0xD800) * 0x400 + (n2 - 0xDC00)) :: acc) rest5
                        else pStr fuel (codeUnitChar n :: acc) rest3)
                   | _ => pStr fuel (codeUnitChar n :: acc) rest3
                 else pStr fuel (codeUnitChar n :: acc) rest3)
            | _ => none
          else none
      else if c.toNat < 32 then none
      else pStr fuel (c :: acc) rest

/-- The optional fraction group `(\.[0-9]+)?`: its digits and the remainder;
nothing is consumed when the group does not match. -/
def pFrac (cs : List Char) : List Char × List Char :=
  match cs with
  | '.' :: r =>
    let ds := r.takeWhile isDigitCh
    if ds.isEmpty then ([], cs) else (ds, r.dropWhile isDigitCh)
  | _ => ([], cs)

/-- The optional exponent group `([eE][+-]?[0-9]+)?`: (matched, negative,
value, remainder); nothing is consumed when the group does not match. -/
def pExp (cs : List Char) : Bool × Bool × Nat × List Char :=
  match cs with
  | e :: r =>
    if e == 'e' || e == 'E' then
      match r with
      | '+' :: r2 =>
        let ds := r2.takeWhile isDigitCh
        if ds.isEmpty then (false, false, 0, cs)
        else (true, false, digitsToNat ds, r2.dropWhile isDigitCh)
      | '-' :: r2 =>
        let ds := r2.takeWhile isDigitCh
        if ds.isEmpty then (false, false, 0, cs)
        else (true, true, digitsToNat ds, r2.dropWhile isDigitCh)
      | _ =>
        let ds := r.takeWhile isDigitCh
        if ds.isEmpty then (false, false, 0, cs)
        else (true, false, digitsToNat ds, r.dropWhile isDigitCh)
    else (false, false, 0, cs)
  | [] => (false, false, 0, cs)

/-- The number grammar after an optional leading minus: the integer part is
`0` or `[1-9][0-9]*` (a second digit after a leading zero is NOT part of the
number), then the optional fraction and exponent groups. Without fraction and
exponent the result is a Python int, otherwise a float. -/
def pNumBody (neg : Bool) (cs : List Char) : Option (Json × List Char) :=
  match cs with
  | c :: rest =>
    if isDigitCh c then
      let (intDigits, rest1) : List Char × List Char :=
        if c == '0' then ([c], rest)
        else (c :: rest.takeWhile isDigitCh, rest.dropWhile isDigitCh)
      let (fracDigits, rest2) := pFrac rest1
      let (hasExp, expNeg, expVal, rest3) := pExp rest2
      let ip := digitsToNat intDigits
      if fracDigits.isEmpty && !hasExp then
        some (.num (if neg then -(ip : Int) else (ip : Int)), rest3)
      else
        let m0 : Int := ((ip * 10 ^ fracDigits.length + digitsToNat fracDigits : Nat) : Int)
        let m : Int := if neg then -m0 else m0
        let scale : Int :=
          (if expNeg then -(expVal : Int) else (expVal : Int)) - (fracDigits.length : Int)
        some (.fnum m scale, rest3)
    else none
  | [] => none

/-- Python `dict(pairs)` on the parsed members of an object: a duplicate key
keeps its first position and takes its last value. -/
def addJsonField (acc : List (String × Json)) (k : String) (v : Json) :
    List (String × Json) :=
  if acc.any (fun e => e.1 = k) then
    acc.map (fun e => if e.1 = k then (e.1, v) else e)
  else acc ++ [(k, v)]

def dictOfPairs (ps : List (String × Json)) : List (String × Json) :=
  ps.foldl (fun acc kv => addJsonField acc kv.1 kv.2) []

mutual

def pVal : Nat → List Char → Option (Json × List Char)
  | 0, _ => none
  | Nat.succ fuel, cs =>
    match skipWs cs with
    | 'n' :: 'u' :: 'l' :: 'l' :: rest => some (.null, rest)
    | 't' :: 'r' :: 'u' :: 'e' :: rest => some (.bool true, rest)
    | 'f' :: 'a' :: 'l' :: 's' :: 'e' :: rest => some (.bool false, rest)
    | 'N' :: 'a' :: 'N' :: rest => some (.nan, rest)
    | 'I' :: 'n' :: 'f' :: 'i' :: 'n' :: 'i' :: 't' :: 'y' :: rest =>
      some (.inf false, rest)
    | '"' :: rest =>
      (match pStr (rest.length + 1) [] rest with
       | some (s, rest2) => some (.str s, rest2)
       | none => none)
    | '[' :: rest =>
      (match skipWs rest with
       | ']' :: rest2 => some (.arr [], rest2)
       | _ =>
         match pElems fuel (skipWs rest) with
         | some (es, rest2) => some (.arr es, rest2)
         | none => none)
    | '{' :: rest =>
      (match skipWs rest with
       | '}' :: rest2 => some (.obj [], rest2)
       | _ =>
         match pMembers fuel (skipWs rest) with
         | some (fs, rest2) => some (.obj (dictOfPairs fs), rest2)
         | none => none)
    | c :: rest =>
      if c == '-' then
        match rest with
        | 'I' :: 'n' :: 'f' :: 'i' :: 'n' :: 'i' :: 't' :: 'y' :: rest2 =>
          some (.inf true, rest2)
        | _ => pNumBody true rest
      else if isDigitCh c then pNumBody false (c :: rest)
      else none
    | [] => none

def pElems : Nat → List Char → Option (List Json × List Char)
  | 0, _ => none
  | Nat.succ fuel, cs =>
    match pVal fuel cs with
    | some (v, rest) =>
      (match skipWs rest with
       | ',' :: rest2 =>
         (match pElems fuel rest2 with
          | some (es, rest3) => some (v :: es, rest3)
          | none => none)
       | ']' :: rest2 => some ([v], rest2)
       | _ => none)
    | none => none

def pMembers : Nat → List Char → Option (List (String × Json) × List Char)
  | 0, _ => none
  | Nat.succ fuel, cs =>
    match skipWs cs with
    | '"' :: rest =>
      (match pStr (rest.length + 1) [] rest with
       | some (k, rest2) =>
         (match skipWs rest2 with
          | ':' :: rest3 =>
            (match pVal fuel rest3 with
             | some (v, rest4) =>
               (match skipWs rest4 with
                | ',' :: rest5 =>
                  (match pMembers fuel rest5 with
                   | some (fs, rest6) => some ((k, v) :: fs, rest6)
                   | none => none)
                | '}' :: rest5 => some ([(k, v)], rest5)
                | _ => none)
             | none => none)
          | _ => none)
       | none => none)
    | _ => none

end

/-- Model of `json.loads`: one value, then only whitespace. -/
def json_loads (cs : List Char) : Option Json :=
  match pVal (cs.length + 1) cs with
  | some (v, rest) => if (skipWs rest).isEmpty then some v else none
  | none => none

/-- Python `str.isspace()` for a single character: the code points a no-argument
`str.strip()` removes (0x09-0x0D, 0x1C-0x20, 0x85, 0xA0, 0x1680,
0x2000-0x200A, 0x2028, 0x2029, 0x202F, 0x205F, 0x3000). -/
def pyIsSpace (c : Char) : Bool :=
  let n := c.toNat
  (9 ≤ n && n ≤ 13) || (28 ≤ n && n ≤ 32) || n == 0x85 || n == 0xA0
    || n == 0x1680 || (0x2000 ≤ n && n ≤ 0x200A) || n == 0x2028 || n == 0x2029
    || n == 0x202F || n == 0x205F || n == 0x3000

/-- Python `str.strip()`: drop Unicode whitespace from both ends. -/
def pyStrip (cs : List Char) : List Char :=
  ((cs.dropWhile pyIsSpace).reverse.dropWhile pyIsSpace).reverse

def isBacktick (c : Char) : Bool := c.toNat == 96

/-- Python `raw.startswith("\x60\x60\x60")`. -/
def startsWithFence : List Char → Bool
  | c1 :: c2 :: c3 :: _ => isBacktick c1 && isBacktick c2 && isBacktick c3
  | _ => false

/-- Python `raw.split("\n", 1)[1]`: the text after the first newline; `none` models
the IndexError raised when the string has no newline. -/
def afterFirstNewline (cs : List Char) : Option (List Char) :=
  match cs.dropWhile (fun c => !(c == '\n')) with
  | [] => none
  | _ :: rest => some rest

/-- Python `raw.rsplit("\x60\x60\x60", 1)[0]`: the text before the last occurrence of
the fence, or `none` when there is no occurrence. `pre` is the reversed prefix
scanned so far and `best` the latest candidate. -/
def beforeLastFence (pre : List Char) (best : Option (List Char)) :
    List Char → Option (List Char)
  | [] => best
  | c :: rest =>
    let best2 := if startsWithFence (c :: rest) then some pre.reverse else best
    beforeLastFence (c :: pre) best2 rest

/-- src/pagina_auditoria.py lines 179-181: the code-fence stripping applied to
the stripped response text; `.error` models the uncaught IndexError. -/
def strip_fences (raw : List Char) : Except Unit (List Char) :=
  if startsWithFence raw then
    match afterFirstNewline raw with
    | none => .error ()
    | some tail => .ok ((beforeLastFence [] none tail).getD tail)
  else .ok raw

/-- The fallback verdict built in the `except json.JSONDecodeError` branch
(src/pagina_auditoria.py lines 185-191). -/
def fallbackVerdict (raw : String) : Json :=
  .obj [("status", .str "Observación"),
        ("justificacion", .str raw),
        ("detalles_observados", .arr []),
        ("recomendaciones", .arr [.str "No se pudo parsear la respuesta de la IA."])]

/-- src/pagina_auditoria.py lines 178-191: the deterministic tail of
analyze_photo, from the classifier response text to the returned verdict.
`.error` is an uncaught exception escaping analyze_photo. -/
def analyze_photo_parse (content : String) : Except Unit Json :=
  let raw := pyStrip content.data
  match strip_fences raw with
  | .error e => .error e
  | .ok raw2 =>
    match json_loads raw2 with
    | some v => .ok v
    | none => .ok (fallbackVerdict (String.mk raw2))

/-! ### Concrete fixtures used by witnesses and counterexamples -/

/-- A pending deviation used to exercise the closing paths. -/
def dPend : Desvio :=
  ⟨0, "2025-01", 0, "Edén", "B", "B.4", "Congeladores", "rojo", "operativo", "",
   none, "pendiente", none, none, false, 1, "media", "", "grido_default", 0, none⟩

def sPend : DbState := ⟨[], [], [], [], [dPend], [], []⟩

/-- The document dPend becomes when closed at time 100 with the placeholder
comment. -/
def dPendClosed : Desvio :=
  ⟨0, "2025-01", 0, "Edén", "B", "B.4", "Congeladores", "rojo", "operativo", "",
   none, "cumplido", some 100, some "Sin comentario", false, 1, "media", "",
   "grido_default", 0, some 100⟩

/-- A structural pending deviation. -/
def dEst : Desvio :=
  ⟨0, "2025-01", 0, "Edén", "B", "B.4", "Congeladores", "rojo", "estructural", "",
   none, "pendiente", none, none, true, 3, "media", "falla recurrente",
   "grido_default", 0, none⟩

def sEst : DbState := ⟨[], [], [], [], [dEst], [], []⟩

/-- Two non-passing evaluations of the same item inside the SAME period
(two photos of item B.4 in 2025-01). -/
def sRec : DbState :=
  ⟨[], [⟨"Edén", "2025-01", "B", "B.4", "Congeladores", "No Conforme", "", 0⟩,
        ⟨"Edén", "2025-01", "B", "B.4", "Congeladores", "No Conforme", "", 1⟩],
   [], [], [], [], []⟩


/-! ### Helper lemmas -/

theorem upsert_results (l f t cb fid : String) (now : Int) (s : DbState) :
    (upsert_auditoria l f t cb fid now s).results = s.results := by
  simp only [upsert_auditoria]
  split <;> rfl

theorem get_audit_results_upsert (l f t cb fid : String) (now : Int) (s : DbState)
    (loc fecha : String) :
    get_audit_results (upsert_auditoria l f t cb fid now s) loc fecha
      = get_audit_results s loc fecha := by
  unfold get_audit_results
  rw [upsert_results]

theorem find?_guarded_map {α : Type} (p : α → Bool) (g : α → α)
    (hg : ∀ a, p (g a) = p a) :
    ∀ l : List α,
      (l.map (fun a => if p a then g a else a)).find? p = (l.find? p).map g := by
  intro l
  induction l with
  | nil => simp
  | cons a l ih =>
    by_cases h : p a = true
    · simp only [List.map_cons, if_pos h]
      rw [List.find?_cons_of_pos _ (by rw [hg]; exact h), List.find?_cons_of_pos _ h]
      rfl
    · simp only [List.map_cons, if_neg h]
      rw [List.find?_cons_of_neg _ h, List.find?_cons_of_neg _ h, ih]

theorem find?_append_singleton {α : Type} (p : α → Bool) (x : α) :
    ∀ l : List α, l.any p = false →
      (l ++ [x]).find? p = if p x then some x else none := by
  intro l
  induction l with
  | nil =>
    intro _
    by_cases h : p x = true
    · simp [List.find?, h]
    · have h2 : p x = false := by revert h; cases p x <;> simp
      simp [List.find?, h2]
  | cons a l ih =>
    intro hany
    have ha : p a = false := by
      revert hany; cases hpa : p a <;> simp [List.any_cons, hpa]
    have hl : l.any p = false := by
      revert hany; cases hl2 : l.any p <;> simp [List.any_cons, hl2, ha]
    rw [List.cons_append, List.find?_cons_of_neg _ (by simp [ha]), ih hl]

theorem find_auditoria_upsert (loc fecha tipo cb fid : String) (now : Int)
    (s : DbState) :
    ∃ a : Auditoria,
      find_auditoria (upsert_auditoria loc fecha tipo cb fid now s) loc fecha = some a
        ∧ a.scores = calculate_section_scores (get_audit_results s loc fecha)
        ∧ a.score_global = score_global_of (get_audit_results s loc fecha)
        ∧ a.items_evaluados = (get_audit_results s loc fecha).length
        ∧ a.tipo_auditoria = tipo ∧ a.updated_at = now := by
  unfold find_auditoria upsert_auditoria
  by_cases h : s.auditorias.any (auditoriaKey loc fecha) = true
  · simp only [h, if_true]
    rw [find?_guarded_map (auditoriaKey loc fecha)
      (setAuditoria tipo (calculate_section_scores (get_audit_results s loc fecha))
        (score_global_of (get_audit_results s loc fecha))
        (get_audit_results s loc fecha).length cb fid now) (fun a => rfl)]
    have hsome : (s.auditorias.find? (auditoriaKey loc fecha)).isSome := by
      rw [List.find?_isSome]
      simpa [List.any_eq_true] using h
    obtain ⟨a0, ha0⟩ := Option.isSome_iff_exists.mp hsome
    rw [ha0]
    exact ⟨_, rfl, rfl, rfl, rfl, rfl, rfl⟩
  · have h2 : s.auditorias.any (auditoriaKey loc fecha) = false := by
      revert h; cases s.auditorias.any (auditoriaKey loc fecha) <;> simp
    simp only [h2, Bool.false_eq_true, if_false]
    rw [find?_append_singleton _ _ _ h2]
    have hk : auditoriaKey loc fecha
        ⟨loc, fecha, tipo, calculate_section_scores (get_audit_results s loc fecha),
         score_global_of (get_audit_results s loc fecha),
         (get_audit_results s loc fecha).length, cb, fid, now, now⟩ = true := by
      simp [auditoriaKey]
    rw [if_pos hk]
    exact ⟨_, rfl, rfl, rfl, rfl, rfl, rfl⟩

/-! ### Claim theorems -/

/-- C1: when a new Deviation is created, with `veces` = 1 plus the count of
prior Deviations of the same (location, item code) whose detection timestamp
lies within the trailing 60 days, the inserted document has
`tipo_desvio = "estructural"` exactly when `veces ≥ 3` (else "operativo") and
`reincidente = true` exactly when `veces > 1`; `veces` itself is stored. -/
theorem create_desvio_recurrence_classification
    (id : Nat) (auditoria_fecha loc seccion item_codigo item_descripcion nivel
      ai_justificacion prioridad franquiciado_id : String) (now : Int)
    (s : DbState) :
    let veces := (s.desvios.filter (fun d =>
      d.loc == loc && d.item_codigo == item_codigo &&
        decide (now - 60 * day ≤ d.fecha_deteccion))).length + 1
    let d := mkDesvio id auditoria_fecha loc seccion item_codigo item_descripcion
      nivel ai_justificacion prioridad franquiciado_id now s
    (create_desvio id auditoria_fecha loc seccion item_codigo item_descripcion
        nivel ai_justificacion prioridad franquiciado_id now s).desvios
        = s.desvios ++ [d]
      ∧ d.tipo_desvio = (if 3 ≤ veces then "estructural" else "operativo")
      ∧ (d.reincidente = true ↔ 1 < veces)
      ∧ d.veces_detectado_60d = veces := by
  refine ⟨rfl, rfl, ?_, rfl⟩
  exact decide_eq_true_iff

/-- C9: the explicit update operation on a Deviation sets the requested state
unconditionally — every stored Deviation with the matching id gets the target
state, whatever its current state (including the terminal states "cumplido"
and "incumplido"); there is no precondition anywhere. -/
theorem update_desvio_no_transition_guard (s : DbState) (did : Nat)
    (target : String) (now : Int) :
    (update_desvio did { estado := some target } now s).desvios
      = s.desvios.map (fun d =>
          if d.id = did then
            { d with estado := target, updated_at := some now }
          else d) := by
  rfl

/-- C10: a status outside {"Conforme", "Observación", "No Conforme"} is mapped
to 50 points — the value of "Observación" — by the section-score computation,
and such an Evaluation is counted, not skipped: a section holding only that
Evaluation scores 50. -/
theorem unknown_status_scores_half (st : String)
    (h1 : st ≠ "Conforme") (h2 : st ≠ "Observación") (h3 : st ≠ "No Conforme") :
    scoreMapGet st = 50
      ∧ scoreMapGet st = scoreMapGet "Observación"
      ∧ ∀ loc fecha sec item_id item_name justificacion t,
          calculate_section_scores
              [⟨loc, fecha, sec, item_id, item_name, st, justificacion, t⟩]
            = [(sec, 50)] := by
  have e1 : (st == "Conforme") = false := beq_eq_false_iff_ne.mpr h1
  have e2 : (st == "Observación") = false := beq_eq_false_iff_ne.mpr h2
  have e3 : (st == "No Conforme") = false := beq_eq_false_iff_ne.mpr h3
  have hm : scoreMapGet st = 50 := by
    simp [scoreMapGet, score_map, List.lookup, e1, e2, e3]
  refine ⟨hm, by rw [hm]; decide, ?_⟩
  intro loc fecha sec item_id item_name justificacion t
  have hr : roundMean [50] = 50 := by decide
  simp [calculate_section_scores, groupPoints, addPoint, hm, hr]

/-- Witness for C10 at the concrete unknown status "Desconocido". -/
theorem unknown_status_scores_half_witness :
    scoreMapGet "Desconocido" = 50
      ∧ calculate_section_scores
          [⟨"L", "2025-01", "A", "A.1", "n", "Desconocido", "", 0⟩]
          = [("A", 50)] :=
  ⟨(unknown_status_scores_half "Desconocido" (by decide) (by decide) (by decide)).1,
   (unknown_status_scores_half "Desconocido" (by decide) (by decide) (by decide)).2.2
     "L" "2025-01" "A" "A.1" "n" "" 0⟩

/-- C8: the photo cleanup keeps exactly the photos whose creation timestamp is
at least the horizon `now - months*30 days` (deleting precisely the older
ones), changes no other collection, and every write operation of the system
only ever appends to the Evaluations (audit_results) and Corrections
collections — none deletes or modifies them. -/
theorem cleanup_scope_and_retention :
    (∀ (months now : Int) (s : DbState),
      (cleanup_old_photos months now s).photos
          = s.photos.filter (fun p => decide (now - months * 30 * day ≤ p.created_at))
        ∧ (cleanup_old_photos months now s).results = s.results
        ∧ (cleanup_old_photos months now s).corrections = s.corrections
        ∧ (cleanup_old_photos months now s).auditorias = s.auditorias
        ∧ (cleanup_old_photos months now s).desvios = s.desvios
        ∧ (cleanup_old_photos months now s).responsables = s.responsables
        ∧ (cleanup_old_photos months now s).decisiones = s.decisiones)
    ∧ (∀ (op : DbOp) (s : DbState),
        (∃ t, (applyOp op s).results = s.results ++ t)
          ∧ (∃ t, (applyOp op s).corrections = s.corrections ++ t)) := by
  constructor
  · intro months now s
    refine ⟨?_, rfl, rfl, rfl, rfl, rfl, rfl⟩
    show s.photos.filter _ = s.photos.filter _
    apply List.filter_congr
    intro p _
    by_cases h : p.created_at < now - months * 30 * day
    · simp [h, not_le.mpr h]
    · simp [h, not_lt.mp h]
  · intro op s
    cases op with
    | opSaveAuditResult loc fecha sec item_id item_name status justificacion now =>
      exact ⟨⟨[⟨loc, fecha, sec, item_id, item_name, status, justificacion, now⟩], rfl⟩,
             ⟨[], by simp [applyOp, save_audit_result]⟩⟩
    | opSaveCorrection item_id item_name ai_status corrected_status ai_justificacion
        correction_notes loc fecha now =>
      exact ⟨⟨[], by simp [applyOp, save_correction]⟩,
             ⟨[⟨item_id, item_name, ai_status, corrected_status, ai_justificacion,
                correction_notes, loc, fecha, now⟩], rfl⟩⟩
    | opUpsertAuditoria loc fecha tipo created_by franquiciado_id now =>
      refine ⟨⟨[], ?_⟩, ⟨[], ?_⟩⟩ <;>
        · simp only [applyOp, upsert_auditoria, List.append_nil]
          split <;> rfl
    | opGuardarCambios did new_estado new_resp new_limit now =>
      refine ⟨⟨[], ?_⟩, ⟨[], ?_⟩⟩ <;>
        · simp only [applyOp, guardar_cambios, List.append_nil]
          split <;> rfl
    | opCerrarDesvio did comentario dec_id now =>
      refine ⟨⟨[], ?_⟩, ⟨[], ?_⟩⟩ <;>
        · simp only [applyOp, cerrar_desvio, List.append_nil]
          cases find_desvio s did with
          | none => rfl
          | some d => dsimp only; split <;> rfl
    | opSavePhoto id loc fecha sec item_id photo_name size_bytes now =>
      exact ⟨⟨[], by simp [applyOp, save_photo]⟩, ⟨[], by simp [applyOp, save_photo]⟩⟩
    | opDeletePhoto photo_id =>
      exact ⟨⟨[], by simp [applyOp, delete_photo]⟩, ⟨[], by simp [applyOp, delete_photo]⟩⟩
    | opCleanupOldPhotos months now =>
      exact ⟨⟨[], by simp [applyOp, cleanup_old_photos]⟩,
             ⟨[], by simp [applyOp, cleanup_old_photos]⟩⟩
    | opCreateDesvio id auditoria_fecha loc seccion item_codigo item_descripcion
        nivel ai_justificacion prioridad franquiciado_id now =>
      exact ⟨⟨[], by simp [applyOp, create_desvio]⟩, ⟨[], by simp [applyOp, create_desvio]⟩⟩
    | opUpdateDesvio desvio_id u now =>
      exact ⟨⟨[], by simp [applyOp, update_desvio]⟩, ⟨[], by simp [applyOp, update_desvio]⟩⟩
    | opCloseDesvio desvio_id comentario now =>
      exact ⟨⟨[], by simp [applyOp, close_desvio, update_desvio]⟩,
             ⟨[], by simp [applyOp, close_desvio, update_desvio]⟩⟩
    | opAddResponsable id nombre rol loc franquiciado_id now =>
      exact ⟨⟨[], by simp [applyOp, add_responsable]⟩,
             ⟨[], by simp [applyOp, add_responsable]⟩⟩
    | opDeleteResponsable resp_id =>
      exact ⟨⟨[], by simp [applyOp, delete_responsable]⟩,
             ⟨[], by simp [applyOp, delete_responsable]⟩⟩
    | opCreateDecision id desvio_id item_codigo loc impacto now =>
      exact ⟨⟨[], by simp [applyOp, create_decision]⟩,
             ⟨[], by simp [applyOp, create_decision]⟩⟩
    | opUpdateDecision decision_id u now =>
      exact ⟨⟨[], by simp [applyOp, update_decision]⟩,
             ⟨[], by simp [applyOp, update_decision]⟩⟩

/-- C4: after an Audit upsert for (location, period), the stored summary
carries exactly the per-section scores of calculate_section_scores and a
global score that is the rounded plain mean of the per-section score values
(one value per section, unweighted by how many items a section holds); in
particular whenever the section score values are [100, 50] the global score is
75, whatever the item counts behind them. -/
theorem audit_global_score_unweighted
    (loc fecha tipo created_by franquiciado_id : String) (now : Int)
    (s : DbState) :
    ((find_auditoria
        (upsert_auditoria loc fecha tipo created_by franquiciado_id now s)
        loc fecha).map (fun a => (a.scores, a.score_global)))
      = some (calculate_section_scores (get_audit_results s loc fecha),
              score_global_of (get_audit_results s loc fecha))
    ∧ (∀ results : List AuditResult,
        score_global_of results
          = (if ((calculate_section_scores results).map Prod.snd).isEmpty then 0
             else roundMean ((calculate_section_scores results).map Prod.snd)))
    ∧ (∀ results : List AuditResult,
        (calculate_section_scores results).map Prod.snd = [100, 50] →
          score_global_of results = 75) := by
  refine ⟨?_, fun results => rfl, ?_⟩
  · obtain ⟨a, ha, h1, h2, _, _, _⟩ :=
      find_auditoria_upsert loc fecha tipo created_by franquiciado_id now s
    rw [ha]
    simp only [Option.map_some']
    rw [h1, h2]
  · intro results h
    have : score_global_of results
        = (if ([100, 50] : List Int).isEmpty then 0 else roundMean [100, 50]) := by
      rw [score_global_of]
      rw [h]
    rw [this]
    decide

/-- Witness for C4: a section with three Conforme items scores 100, a section
with one Observación item scores 50, and the stored global score is 75 — the
mean is taken over the two section scores, not over the four items. -/
theorem audit_global_score_unweighted_witness :
    calculate_section_scores
        [⟨"Edén", "2025-01", "A", "A.1", "n", "Conforme", "", 0⟩,
         ⟨"Edén", "2025-01", "A", "A.2", "n", "Conforme", "", 1⟩,
         ⟨"Edén", "2025-01", "A", "A.3", "n", "Conforme", "", 2⟩,
         ⟨"Edén", "2025-01", "B", "B.1", "n", "Observación", "", 3⟩]
        = [("A", 100), ("B", 50)]
      ∧ score_global_of
          [⟨"Edén", "2025-01", "A", "A.1", "n", "Conforme", "", 0⟩,
           ⟨"Edén", "2025-01", "A", "A.2", "n", "Conforme", "", 1⟩,
           ⟨"Edén", "2025-01", "A", "A.3", "n", "Conforme", "", 2⟩,
           ⟨"Edén", "2025-01", "B", "B.1", "n", "Observación", "", 3⟩]
          = 75 :=
  ⟨by decide,
   (audit_global_score_unweighted "Edén" "2025-01" "operativo" "operativo"
       "grido_default" 0 ⟨[], [], [], [], [], [], []⟩).2.2
     [⟨"Edén", "2025-01", "A", "A.1", "n", "Conforme", "", 0⟩,
      ⟨"Edén", "2025-01", "A", "A.2", "n", "Conforme", "", 1⟩,
      ⟨"Edén", "2025-01", "A", "A.3", "n", "Conforme", "", 2⟩,
      ⟨"Edén", "2025-01", "B", "B.1", "n", "Observación", "", 3⟩]
     (by decide)⟩

/-- C7: recomputing the Audit summary is idempotent and deterministic — an
immediate second upsert from the same underlying Evaluations stores exactly
the same per-section scores, global score and item count as the first. -/
theorem upsert_auditoria_idempotent
    (loc fecha tipo created_by franquiciado_id : String) (now1 now2 : Int)
    (s : DbState) :
    ((find_auditoria
        (upsert_auditoria loc fecha tipo created_by franquiciado_id now2
          (upsert_auditoria loc fecha tipo created_by franquiciado_id now1 s))
        loc fecha).map (fun a => (a.scores, a.score_global, a.items_evaluados)))
      = ((find_auditoria
            (upsert_auditoria loc fecha tipo created_by franquiciado_id now1 s)
            loc fecha).map (fun a => (a.scores, a.score_global, a.items_evaluados))) := by
  obtain ⟨a1, ha1, hs1, hg1, hn1, _, _⟩ :=
    find_auditoria_upsert loc fecha tipo created_by franquiciado_id now1 s
  obtain ⟨a2, ha2, hs2, hg2, hn2, _, _⟩ :=
    find_auditoria_upsert loc fecha tipo created_by franquiciado_id now2
      (upsert_auditoria loc fecha tipo created_by franquiciado_id now1 s)
  have hr : get_audit_results
      (upsert_auditoria loc fecha tipo created_by franquiciado_id now1 s) loc fecha
      = get_audit_results s loc fecha :=
    get_audit_results_upsert loc fecha tipo created_by franquiciado_id now1 s loc fecha
  rw [ha1, ha2]
  simp only [Option.map_some']
  rw [hs1, hs2, hg1, hg2, hn1, hn2, hr]

theorem cerrar_desvio_desvios (did : Nat) (comentario : String) (dec_id : Nat)
    (now : Int) (s : DbState) :
    (cerrar_desvio did comentario dec_id now s).desvios
      = (close_desvio did (if comentario = "" then "Sin comentario" else comentario)
          now s).desvios := by
  simp only [cerrar_desvio]
  cases find_desvio s did with
  | none => rfl
  | some d =>
    dsimp only
    split <;> rfl

theorem close_desvio_mem (did : Nat) (c : String) (now : Int) (s : DbState)
    (d : Desvio) (hd : d ∈ (close_desvio did c now s).desvios)
    (hid : d.id = did) :
    d.estado = "cumplido" ∧ d.fecha_cierre = some now
      ∧ d.comentario_cierre = some c := by
  simp only [close_desvio, update_desvio, List.mem_map] at hd
  obtain ⟨d0, _, rfl⟩ := hd
  by_cases h : d0.id = did
  · simp [applySet, h]
  · rw [if_neg h] at hid ⊢
    exact absurd hid h

/-- C6: whichever button closes a Deviation (reaching "cumplido"), the stored
document gets a closure timestamp and a non-empty closure comment: the
dedicated close action substitutes an empty user comment with the placeholder
"Sin comentario", and the save-changes path always writes the fixed comment
"Cerrado desde bandeja". -/
theorem close_sets_timestamp_and_nonempty_comment (s : DbState)
    (did dec_id : Nat) (comentario : String) (now : Int) :
    (∀ d ∈ (cerrar_desvio did comentario dec_id now s).desvios, d.id = did →
        d.estado = "cumplido"
          ∧ d.fecha_cierre = some now
          ∧ d.comentario_cierre
              = some (if comentario = "" then "Sin comentario" else comentario)
          ∧ (if comentario = "" then "Sin comentario" else comentario) ≠ "")
      ∧ (∀ (new_resp : String) (new_limit : Int),
          ∀ d ∈ (guardar_cambios did "cumplido" new_resp new_limit now s).desvios,
            d.id = did →
              d.estado = "cumplido" ∧ d.fecha_cierre = some now
                ∧ d.comentario_cierre = some "Cerrado desde bandeja") := by
  constructor
  · intro d hd hid
    rw [cerrar_desvio_desvios] at hd
    have h := close_desvio_mem did _ now s d hd hid
    refine ⟨h.1, h.2.1, h.2.2, ?_⟩
    by_cases hc : comentario = ""
    · simp [hc]
    · simp [hc]
  · intro new_resp new_limit d hd hid
    have e : (guardar_cambios did "cumplido" new_resp new_limit now s).desvios
        = (close_desvio did "Cerrado desde bandeja" now
            (update_desvio did
              { estado := some "cumplido"
                responsable := some (if new_resp = "(sin asignar)" then "" else new_resp)
                fecha_limite := some (some new_limit) } now s)).desvios := by
      simp [guardar_cambios]
    rw [e] at hd
    exact close_desvio_mem did _ now _ d hd hid

/-- Witness for C6: closing dPend with an EMPTY user comment stores estado
"cumplido", the closure timestamp, and the non-empty placeholder comment. -/
theorem close_sets_timestamp_and_nonempty_comment_witness :
    dPendClosed.estado = "cumplido"
      ∧ dPendClosed.fecha_cierre = some 100
      ∧ dPendClosed.comentario_cierre = some "Sin comentario"
      ∧ "Sin comentario" ≠ "" := by
  have h := (close_sets_timestamp_and_nonempty_comment sPend 0 9 "" 100).1
    dPendClosed (by decide) (by decide)
  exact ⟨h.1, h.2.1, h.2.2.1, h.2.2.2⟩

/-- C3 counterexample: the save-changes path closes a STRUCTURAL deviation
(estado becomes "cumplido" with a closure timestamp) yet creates no Decision
at all — so it is not true that every closing of a structural Deviation
creates one. -/
theorem guardar_cambios_closes_structural_without_decision :
    (guardar_cambios 0 "cumplido" "(sin asignar)" 7 100 sEst).decisiones = []
      ∧ ((find_desvio (guardar_cambios 0 "cumplido" "(sin asignar)" 7 100 sEst) 0).map
          (fun d => (d.estado, d.tipo_desvio, d.fecha_cierre)))
          = some ("cumplido", "estructural", some 100) := by
  decide

/-- C3 (amended): only the dedicated close action escalates — closing a
structural Deviation there appends exactly one Decision referencing it with
decision state "pendiente", closing a non-structural one appends none, and the
save-changes path never creates a Decision even when it closes the
deviation. -/
theorem decision_escalation_on_close_paths :
    (∀ (s : DbState) (did dec_id : Nat) (comentario : String) (now : Int)
        (d : Desvio),
      find_desvio s did = some d →
        (d.tipo_desvio = "estructural" →
          (cerrar_desvio did comentario dec_id now s).decisiones
            = s.decisiones
                ++ [⟨dec_id, did, d.item_codigo, d.loc, d.ai_justificacion, "",
                     "pendiente", now, now⟩])
          ∧ (d.tipo_desvio ≠ "estructural" →
            (cerrar_desvio did comentario dec_id now s).decisiones = s.decisiones))
      ∧ (∀ (s : DbState) (did : Nat) (new_estado new_resp : String)
          (new_limit now : Int),
          (guardar_cambios did new_estado new_resp new_limit now s).decisiones
            = s.decisiones) := by
  constructor
  · intro s did dec_id comentario now d hfind
    constructor
    · intro hstr
      simp only [cerrar_desvio, hfind]
      rw [if_pos hstr]
      rfl
    · intro hstr
      simp only [cerrar_desvio, hfind]
      rw [if_neg hstr]
      rfl
  · intro s did new_estado new_resp new_limit now
    simp only [guardar_cambios]
    split <;> rfl

/-- Witness for the amended C3: closing the structural deviation dEst through
the dedicated close action yields exactly one pending Decision referencing
it. -/
theorem decision_escalation_on_close_paths_witness :
    (cerrar_desvio 0 "listo" 5 100 sEst).decisiones
      = [⟨5, 0, "B.4", "Edén", "falla recurrente", "", "pendiente", 100, 100⟩] := by
  have h := (decision_escalation_on_close_paths.1 sEst 0 5 "listo" 100 dEst
    (by rfl)).1 (by rfl)
  simpa using h

/-- C2 evaluated at the failing input: with two non-passing Evaluations of
item B.4 both in period "2025-01", the recurring-failure query with
min_count = 2 RETURNS the item (fail_count counts documents), although the
non-passing evaluations span exactly one distinct period — so an item failing
twice within the same period is reported, contrary to the claim (and to the
query docstring "in multiple audits"). -/
theorem recurring_failures_counts_documents_not_periods :
    get_recurring_failures sRec "Edén" 2
        = [⟨"B.4", "Congeladores", 2, ["2025-01"]⟩]
      ∧ ((sRec.results.filter
            (fun r => r.loc == "Edén" && !(r.status == "Conforme"))).map
            (fun r => r.fecha)).dedup = ["2025-01"] := by
  decide

/-- C5 counterexample: three concrete classifier responses violating the
claim. An empty response yields the fallback verdict whose justification is
the EMPTY string (not a non-empty one); the response "42" parses as JSON and
is returned unchanged (no "Observación" status, no parse-failure note, even
though it is not the expected structure); the response of a bare code fence
with no newline escapes analyze_photo as an uncaught IndexError. -/
theorem analyze_photo_parse_edge_responses :
    analyze_photo_parse "" = .ok (fallbackVerdict "")
      ∧ fallbackVerdict ""
          = .obj [("status", .str "Observación"),
                  ("justificacion", .str ""),
                  ("detalles_observados", .arr []),
                  ("recomendaciones",
                   .arr [.str "No se pudo parsear la respuesta de la IA."])]
      ∧ analyze_photo_parse "42" = .ok (.num 42)
      ∧ analyze_photo_parse "```" = .error () :=
  ⟨rfl, rfl, rfl, rfl⟩

/-- C5 (amended): whenever the stripped, fence-stripped response text fails
JSON parsing, analyze_photo does not fail: it returns status "Observación",
a justification equal to that stripped text (it contains the raw response but
is empty when the response is blank), and the fixed parse-failure note; a
response that does parse as JSON is returned as-is, whatever its shape. -/
theorem analyze_photo_parse_fallback :
    (∀ (content : String) (raw2 : List Char),
      strip_fences (pyStrip content.data) = .ok raw2 →
      json_loads raw2 = none →
      analyze_photo_parse content
        = .ok (.obj [("status", .str "Observación"),
                     ("justificacion", .str (String.mk raw2)),
                     ("detalles_observados", .arr []),
                     ("recomendaciones",
                      .arr [.str "No se pudo parsear la respuesta de la IA."])]))
      ∧ (∀ (content : String) (raw2 : List Char) (v : Json),
          strip_fences (pyStrip content.data) = .ok raw2 →
          json_loads raw2 = some v →
          analyze_photo_parse content = .ok v) := by
  constructor
  · intro content raw2 hs hp
    simp only [analyze_photo_parse, hs, hp]
    rfl
  · intro content raw2 v hs hp
    simp only [analyze_photo_parse, hs, hp]

/-- Witness for the amended C5: the non-JSON response "hola" falls back to the
precautionary verdict carrying "hola" as justification, while the JSON
responses "42" (an int) and "1e5" (an exponent float) are returned
unchanged. -/
theorem analyze_photo_parse_fallback_witness :
    analyze_photo_parse "hola"
        = .ok (.obj [("status", .str "Observación"),
                     ("justificacion", .str "hola"),
                     ("detalles_observados", .arr []),
                     ("recomendaciones",
                      .arr [.str "No se pudo parsear la respuesta de la IA."])])
      ∧ analyze_photo_parse "42" = .ok (.num 42)
      ∧ analyze_photo_parse "1e5" = .ok (.fnum 1 5) :=
  ⟨analyze_photo_parse_fallback.1 "hola" "hola".data rfl rfl,
   analyze_photo_parse_fallback.2 "42" "42".data (.num 42) rfl rfl,
   analyze_photo_parse_fallback.2 "1e5" "1e5".data (.fnum 1 5) rfl rfl⟩
